import Mathlib

/-!
Verification of the AutoInfluencer repository's quota-management, fetch,
classification and transcription-queue logic, as a shallow embedding of the
Python sources (`optimized_multi_api_finder.py`, `optimized_youtube_analyzer.py`,
`ai_analyzer.py`, `whisper_api_server.py`) into Lean.

Python objects become explicit state records, exceptions become explicit
outcome values (a Python `raise` that escapes a function is a `raised`
value; a `try`/`except` is a `match` on that value), and the external
HTTP transports (the YouTube Data API, the LLM providers, the Whisper
transcriber) are parameters of the embedded functions so that theorems can
quantify over their behavior.  Python string operations are re-implemented
over `List Char` so that all definitions evaluate inside the kernel.
-/

set_option maxRecDepth 8000

/-! ## Python-style primitives -/

/-- Outcome of a Python call: either a normal return value, or an uncaught
exception carrying its message. -/
inductive PyOutcome (α : Type) where
  | normal (a : α)
  | raised (e : String)
  deriving Repr, DecidableEq

/-- True iff the outcome is an uncaught exception. -/
def PyOutcome.isRaised {α : Type} : PyOutcome α → Bool
  | .normal _ => false
  | .raised _ => true

/-- Result of one call to the quota-bounded YouTube Data API transport:
a successful payload, an HTTP 403 quota error (the
`quotaExceeded`/`dailyLimitExceeded` reason tested for at
optimized_multi_api_finder.py line 306), or any other transport error. -/
inductive ApiResponse (α : Type) where
  | ok (data : α)
  | quotaError
  | otherError
  deriving Repr, DecidableEq

/-- Python `str.upper()` (the sources only ever compare ASCII results). -/
def py_upper (s : String) : String := String.mk (s.data.map Char.toUpper)

/-- Python `str.lower()`. -/
def py_lower (s : String) : String := String.mk (s.data.map Char.toLower)

/-- Python `str.strip()`: removes leading and trailing whitespace. -/
def py_strip (s : String) : String :=
  String.mk (((s.data.dropWhile Char.isWhitespace).reverse.dropWhile
      Char.isWhitespace).reverse)

/-- Python `str.lstrip('@')`: removes every leading `@`. -/
def py_lstrip_at (s : String) : String := String.mk (s.data.dropWhile (· = '@'))

/-- Python `str.replace('@', '')`: removes every `@`. -/
def py_remove_at (s : String) : String := String.mk (s.data.filter (· ≠ '@'))

/-- Python `s[:n]`: the first `n` characters. -/
def py_take (s : String) (n : Nat) : String := String.mk (s.data.take n)

def splitAux (sep : Char) : List Char → List Char → List String
  | [], acc => [String.mk acc.reverse]
  | c :: cs, acc =>
    if c = sep then String.mk acc.reverse :: splitAux sep cs []
    else splitAux sep cs (c :: acc)

/-- Python `str.split(sep)` for a one-character separator: splits on every
occurrence and keeps empty pieces, so the result is never the empty list. -/
def py_split (s : String) (sep : Char) : List String := splitAux sep s.data []

/-- Python `sep.join(parts)`. -/
def py_join (sep : String) : List String → String
  | [] => ""
  | x :: xs => xs.foldl (fun acc y => acc ++ sep ++ y) x

def char_list_lt : List Char → List Char → Bool
  | [], [] => false
  | [], _ :: _ => true
  | _ :: _, [] => false
  | a :: as, b :: bs =>
    if a.toNat = b.toNat then char_list_lt as bs else decide (a.toNat < b.toNat)

/-- Python `str <`: lexicographic comparison by code point. -/
def py_str_lt (a b : String) : Bool := char_list_lt a.data b.data

def insert_sorted (x : String) : List String → List String
  | [] => [x]
  | y :: ys => if py_str_lt y x then y :: insert_sorted x ys else x :: y :: ys

/-- Python `sorted(keys)` for strings: ascending lexicographic order. -/
def py_sorted (l : List String) : List String := l.foldr insert_sorted []

/-! ## Credential pool (`OptimizedMultiAPIKeyFinder`, optimized_multi_api_finder.py)

The fields of the Python object that the rotation logic touches:
`self.api_keys` (ordered list, loaded once), `self.current_key_index`
(starts at 0), `self.api_calls_per_key` (per-key usage counters). -/

structure FinderState where
  api_keys : List String
  current_key_index : Nat
  api_calls_per_key : List Nat
  deriving Repr, DecidableEq

/-- Construction (`__init__` + `_load_api_keys`, lines 58-74 and 169-192):
raises `ValueError` when no key is configured, otherwise starts at key
index 0 with zeroed usage counters (`{i: 0 for i in range(len(self.api_keys))}`). -/
def mk_finder (keys : List String) : Except String FinderState :=
  if keys.isEmpty then
    .error "No YOUTUBE_API_KEY found in environment variables"
  else
    .ok { api_keys := keys
          current_key_index := 0
          api_calls_per_key := List.replicate keys.length 0 }

/-- `switch_to_next_api_key` (lines 208-221): increments
`self.current_key_index` FIRST, then raises `QuotaExceededError` when the new
index is past the end of the key list.  Because the increment mutates the
object before the raise, the state in which the exception leaves the object
is returned together with the exception: the second component is `some msg`
when `QuotaExceededError(msg)` was raised, `none` on a successful switch
(in which case `_initialize_current_analyzer` rebuilds the analyzer, which
cannot fail since the index was just checked to be in range). -/
def switch_to_next_api_key (s : FinderState) : FinderState × Option String :=
  if s.api_keys.length ≤ s.current_key_index + 1 then
    ({ s with current_key_index := s.current_key_index + 1 },
     some "All API keys exhausted")
  else
    ({ s with current_key_index := s.current_key_index + 1 }, none)

/-- `track_api_usage` (lines 223-227): increments the usage counter of the
currently active key; the active index and the key list are untouched. -/
def track_api_usage (s : FinderState) : FinderState :=
  { s with
    api_calls_per_key :=
      s.api_calls_per_key.set s.current_key_index
        (s.api_calls_per_key.getD s.current_key_index 0 + 1) }

/-- Applying `switch_to_next_api_key` repeatedly, threading the (possibly
exception-carrying) state. -/
def iter_switch (s : FinderState) : Nat → FinderState
  | 0 => s
  | n + 1 => (switch_to_next_api_key (iter_switch s n)).1

/-- States of the finder reachable within one run: the state right after
construction, and the results of `track_api_usage` and of successful
`switch_to_next_api_key` calls. -/
inductive ReachableFinder : FinderState → Prop where
  | init (keys : List String) (s : FinderState) :
      mk_finder keys = .ok s → ReachableFinder s
  | usage (s : FinderState) :
      ReachableFinder s → ReachableFinder (track_api_usage s)
  | switchOk (s : FinderState) :
      ReachableFinder s → (switch_to_next_api_key s).2 = none →
      ReachableFinder (switch_to_next_api_key s).1

/-! ## Optimized fetch (`OptimizedYouTubeAnalyzer`, optimized_youtube_analyzer.py) -/

structure VideoSnippet where
  title : String
  description : String
  deriving Repr, DecidableEq

/-- The `statistics` dict of a video; each counter may be absent
(`stats.get('viewCount', 0)` then defaults it to 0). -/
structure VideoStatistics where
  viewCount : Option Nat
  commentCount : Option Nat
  deriving Repr, DecidableEq

/-- One item of the `search().list` response inside
`get_channel_videos_with_stats`: only `id.videoId` is consumed. -/
structure SearchListItem where
  videoId : String
  deriving Repr, DecidableEq

/-- One item of the `videos().list` response: id, snippet, optional
statistics, and the ISO-8601 `contentDetails.duration` string. -/
structure VideoListItem where
  id : String
  snippet : VideoSnippet
  statistics : Option VideoStatistics
  duration : String
  deriving Repr, DecidableEq

/-- The per-video dict built at lines 73-79 of optimized_youtube_analyzer.py:
`{'id': {'videoId': ...}, 'snippet': ..., 'statistics': video.get('statistics', {}),
'duration_seconds': self._parse_duration(...)}`. -/
structure ProcessedVideo where
  videoId : String
  snippet : VideoSnippet
  statistics : Option VideoStatistics
  duration_seconds : Nat
  deriving Repr, DecidableEq

/-- The two YouTube Data API operations used by
`get_channel_videos_with_stats`, as an abstract transport:
`searchList channelId maxResults` is `youtube.search().list(...).execute()`
restricted to a channel, and `videosList ids` is
`youtube.videos().list(id=','.join(ids)).execute()`.  Each invocation of
either operation is one quota-bounded API call. -/
structure YouTubeTransport where
  searchList : String → Nat → ApiResponse (List SearchListItem)
  videosList : List String → ApiResponse (List VideoListItem)

def takeDigits : List Char → List Char × List Char
  | [] => ([], [])
  | c :: cs =>
    if c.isDigit then
      let (ds, rest) := takeDigits cs
      (c :: ds, rest)
    else ([], c :: cs)

def digitsVal (ds : List Char) : Nat :=
  ds.foldl (fun acc c => acc * 10 + (c.toNat - 48)) 0

/-- One optional regex group `(?:(\d+)U)?`: a maximal digit run followed by
the unit letter `u`; if the digits are missing or not followed by `u`,
nothing is consumed and the group is `None`. -/
def parseNumUnit (cs : List Char) (u : Char) : Option Nat × List Char :=
  match takeDigits cs with
  | ([], _) => (none, cs)
  | (ds, rest) =>
    match rest with
    | r :: rs => if r = u then (some (digitsVal ds), rs) else (none, cs)
    | [] => (none, cs)

/-- `_parse_duration` (lines 208-223): matches
`PT(?:(\d+)H)?(?:(\d+)M)?(?:(\d+)S)?` from the start of the string (missing
groups count 0; a string not starting with `PT` fails the match and gives 0)
and returns total seconds. -/
def parse_duration (duration : String) : Nat :=
  match duration.data with
  | 'P' :: 'T' :: rest =>
    let (h, r1) := parseNumUnit rest 'H'
    let (m, r2) := parseNumUnit r1 'M'
    let (s, _) := parseNumUnit r2 'S'
    (h.getD 0) * 3600 + (m.getD 0) * 60 + (s.getD 0)
  | _ => 0

/-- The `try` block of `get_channel_videos_with_stats` (lines 47-85): one
`search().list` call; when it yields no items, return `[]` after that single
call; otherwise one `videos().list` batch call over all returned ids, and
the per-video dicts are built.  A transport error is a raised `HttpError`
(the quota case is distinguished).  The second component counts the
quota-bounded API calls issued.  (The `self.video_cache` side effect of
line 82 is a process-local cache not observed by any claim and is omitted.) -/
def get_channel_videos_with_stats_body (t : YouTubeTransport)
    (channel_id : String) (max_results : Nat) :
    PyOutcome (List ProcessedVideo) × Nat :=
  match t.searchList channel_id max_results with
  | .quotaError => (.raised "HttpError 403 quotaExceeded", 1)
  | .otherError => (.raised "HttpError", 1)
  | .ok items =>
    if items.isEmpty then (.normal [], 1)
    else
      let video_ids := items.map SearchListItem.videoId
      match t.videosList video_ids with
      | .quotaError => (.raised "HttpError 403 quotaExceeded", 2)
      | .otherError => (.raised "HttpError", 2)
      | .ok videos =>
        (.normal (videos.map (fun v =>
          { videoId := v.id
            snippet := v.snippet
            statistics := v.statistics
            duration_seconds := parse_duration v.duration })), 2)

/-- `get_channel_videos_with_stats` (lines 45-89): the `try` body above
wrapped in `except Exception` (lines 87-89), which catches EVERY exception —
including the quota-exceeded `HttpError` — logs it, and returns the empty
list.  Hence the function never lets an exception escape. -/
def get_channel_videos_with_stats (t : YouTubeTransport)
    (channel_id : String) (max_results : Nat) :
    PyOutcome (List ProcessedVideo) × Nat :=
  match get_channel_videos_with_stats_body t channel_id max_results with
  | (.raised _, calls) => (.normal [], calls)
  | ok => ok

/-- `int(video.get('statistics', {}).get('viewCount', 0))` as used at
line 375 of optimized_multi_api_finder.py. -/
def video_view_count (v : ProcessedVideo) : Nat :=
  match v.statistics with
  | some st => st.viewCount.getD 0
  | none => 0

/-- Channel dict returned by `get_channel_details`
(optimized_multi_api_finder.py lines 343-351). -/
structure ChannelInfo where
  channel_id : String
  title : String
  handle : String
  description : String
  subscriber_count : Nat
  video_count : Nat
  view_count : Nat
  deriving Repr, DecidableEq

/-- The niche-verification prompt built at lines 147-187 of
optimized_youtube_analyzer.py, with the video content block and the
channel-description excerpt interpolated. -/
def verification_prompt (content_text : String) (channel_description : String) :
    String :=
  "\nAnalyze these YouTube videos and determine if this channel fits our target niche: DATING ADVICE + SELF-IMPROVEMENT for men.\n\n"
  ++ "Video Content:\n" ++ content_text ++ "\n\n"
  ++ "Channel Description: " ++ channel_description ++ "\n\n"
  ++ "PRIORITY 1 - DATING FOCUSED (automatic YES):\n"
  ++ "- Dating advice & tips\n"
  ++ "- How to attract women/get girlfriend\n"
  ++ "- Relationship advice & psychology\n"
  ++ "- Flirting & conversation with women\n"
  ++ "- Masculinity & attraction tips\n"
  ++ "- Dating confidence & mindset\n"
  ++ "- Texting game (e.g. texting girls, texting on Tinder, Hinge, Bumble, DMs)\n"
  ++ "- Dating apps (Tinder, Hinge, Bumble, etc.)\n"
  ++ "- Pickup, cold approach, rizz, social skills for dating\n\n"
  ++ "PRIORITY 2 - SELF-IMPROVEMENT WITH DATING ELEMENTS (YES if includes some dating):\n"
  ++ "- Confidence building (mentions dating/women)\n"
  ++ "- Social skills (includes talking to women)\n"
  ++ "- Personal development (touches on relationships)\n"
  ++ "- Psychology tips (covers attraction/dating)\n"
  ++ "- Charisma & communication (mentions dating context)\n\n"
  ++ "REJECT - PURE GENERAL CONTENT (NO unless dating mentioned):\n"
  ++ "- Pure productivity/business only\n"
  ++ "- Fitness only (unless looks/attraction focused)\n"
  ++ "- Mental health only (unless dating anxiety)\n"
  ++ "- Pure motivational content\n\n"
  ++ "QUESTION: Does this channel help men with dating, attracting women, OR self-improvement that includes dating/relationship elements? (INCLUDING texting game, dating apps, flirting, pickup, DMs, etc.)\n\n"
  ++ "Respond with:\n"
  ++ "1. YES or NO\n"
  ++ "2. One sentence explaining why (mention dating relevance)\n"
  ++ "3. Specific category (e.g. \"Dating Advice\", \"Dating + Self-Improvement\", \"Texting Game\", \"Dating Apps\", \"Social Skills + Dating\", \"Masculinity\", etc.)\n\n"
  ++ "Format: YES/NO | Explanation | Category\n"

/-- `verify_niche_from_cached_videos` (lines 128-206 of
optimized_youtube_analyzer.py).  `analyze` stands for
`ai_analyzer.analyze_content`.  The first component is the Python return
value `(is_match, explanation, category)`; the second counts the calls made
to the classifier (0 or 1).  No statement in the body can raise, so the
surrounding `try`/`except` of the source never fires and the embedding is a
total function. -/
def verify_niche_from_cached_videos (channel_info : ChannelInfo)
    (videos : List ProcessedVideo) (analyze : String → String) :
    (Bool × String × String) × Nat :=
  if videos.isEmpty then ((false, "Could not fetch videos", ""), 0)
  else
    let sample_videos := videos.take 5
    let video_content := sample_videos.map (fun v =>
      "Title: " ++ v.snippet.title ++ "\nDescription: "
        ++ py_take v.snippet.description 200 ++ "...")
    let content_text := py_join "\n\n" video_content
    let prompt := verification_prompt content_text
        (py_take channel_info.description 300)
    let ai_response := analyze prompt
    let parts := py_split ai_response '|'
    if 3 ≤ parts.length then
      let decision := py_upper (py_strip (parts.getD 0 ""))
      let explanation := py_strip (parts.getD 1 "")
      let category := py_strip (parts.getD 2 "")
      ((decision == "YES", explanation, category), 1)
    else
      ((false, "Could not parse AI response", ""), 1)

/-! ## LLM gateway (`AIAnalyzer`, ai_analyzer.py) -/

/-- Outcome of one provider-client call (`self.groq_client` /
`self.openai_client` usage inside `_call_groq` / `_call_openai`): the call
either raises, or returns `None`, or returns a string. -/
inductive ClientResult where
  | raises
  | returns (s : Option String)
  deriving Repr, DecidableEq

/-- One provider block of `_call_ai_api` (the identical pattern at
lines 114-121 and 124-131): when the client is configured, call it inside
`try` — any exception is caught and logged (yielding no response), and the
response survives only when it is truthy (`if response:`, i.e. not `None`
and not the empty string). -/
def attempt_provider (client : Option (String → ClientResult))
    (prompt : String) : Option String :=
  match client with
  | none => none
  | some call =>
    match call prompt with
    | .raises => none
    | .returns none => none
    | .returns (some r) => if r.isEmpty then none else some r

/-- `_call_ai_api` (lines 110-134): try the Groq client, fall back to the
OpenAI client, and when both attempts produce no usable response return the
fixed unavailability string.  Every provider interaction is wrapped in
`try`/`except`, so the function always returns a string and never lets an
exception escape — which is why its embedding is a total function into
`String`. -/
def call_ai_api (groq_client openai_client : Option (String → ClientResult))
    (prompt : String) (analysis_type : String) : String :=
  match attempt_provider groq_client prompt with
  | some r => r
  | none =>
    match attempt_provider openai_client prompt with
    | some r => r
    | none => "Unable to generate " ++ analysis_type ++ " - AI services unavailable."

/-- `analyze_content` (lines 58-60): `self._call_ai_api(prompt, "content analysis")`. -/
def analyze_content (groq_client openai_client : Option (String → ClientResult))
    (prompt : String) : String :=
  call_ai_api groq_client openai_client prompt "content analysis"

/-- A provider slot counts as failing for a given prompt when the client is
not configured, or its call raises, or it returns `None`, or it returns the
empty string (all of which make `_call_ai_api` fall through). -/
def provider_call_fails (client : Option (String → ClientResult))
    (prompt : String) : Prop :=
  match client with
  | none => True
  | some call =>
    call prompt = .raises ∨ call prompt = .returns none ∨
      call prompt = .returns (some "")

/-! ## Candidate processing (`process_channel_optimized`,
optimized_multi_api_finder.py lines 357-428) -/

/-- `process_channel_optimized`: skip when already discovered this session;
fetch the channel's videos (15 requested); reject when none; reject when
fewer than `min_videos_with_min_views = 8` of them have at least
`min_views_per_video = 1000` views — all BEFORE `verify_niche_from_cached_videos`
is reached, which is where the single classifier call happens.  Result:
`(accepted, number of classifier calls made)`.  The CSV write, the usage
tracking and the AI rate-limit sleep (pure side effects with no API or
classifier call) are omitted; the surrounding `try`/`except` returns
`(false, _)` on an exception, and the embedded body is total. -/
def process_channel_optimized (discovered_channels : List String)
    (t : YouTubeTransport) (analyze : String → String)
    (channel_info : ChannelInfo) : Bool × Nat :=
  if discovered_channels.contains channel_info.channel_id then (false, 0)
  else
    match (get_channel_videos_with_stats t channel_info.channel_id 15).1 with
    | .raised _ => (false, 0)
    | .normal videos =>
      if videos.isEmpty then (false, 0)
      else
        let min_views_per_video := 1000
        let min_videos_with_min_views := 8
        let videos_with_min_views :=
          videos.filter (fun v => min_views_per_video ≤ video_view_count v)
        if videos_with_min_views.length < min_videos_with_min_views then
          (false, 0)
        else
          let r := verify_niche_from_cached_videos channel_info videos analyze
          if r.1.1 then (true, r.2) else (false, r.2)

/-! ## Registry deduplication (`_is_discovered` and
`search_channels_by_keyword`, optimized_multi_api_finder.py lines 229-315) -/

/-- One item of the keyword video search: `snippet.channelId` and
`snippet.channelTitle` are the fields the dedup logic consumes. -/
structure VideoSearchItem where
  channelId : String
  channelTitle : String
  deriving Repr, DecidableEq

/-- The dict handed to `_is_discovered` (keys `handle`, `channel_id`,
`title`). -/
structure ChannelCheckInfo where
  handle : String
  channel_id : String
  title : String
  deriving Repr, DecidableEq

def channel_check_of (ci : ChannelInfo) : ChannelCheckInfo :=
  { handle := ci.handle, channel_id := ci.channel_id, title := ci.title }

/-- `_is_discovered` (lines 229-246): normalizes the candidate's handle
(strip, drop leading `@`, lowercase), custom url (strip, drop every `@`,
lowercase), title (strip, lowercase) and the search item's channel title,
and tests each non-empty form against the registry's handle set; then tests
the (stripped) channel id against the registry's id set. -/
def is_discovered (discovered_handles discovered_channel_ids : List String)
    (channel_info : ChannelCheckInfo) (item : Option VideoSearchItem) : Bool :=
  let handle := py_lower (py_lstrip_at (py_strip channel_info.handle))
  let custom_url := py_lower (py_remove_at (py_strip channel_info.handle))
  let channel_id := py_strip channel_info.channel_id
  let title := py_lower (py_strip channel_info.title)
  let item_title :=
    match item with
    | some it => py_lower (py_lstrip_at (py_strip it.channelTitle))
    | none => ""
  ([handle, custom_url, title, item_title].any
      (fun h => !h.isEmpty && discovered_handles.contains h))
  || (!channel_id.isEmpty && discovered_channel_ids.contains channel_id)

/-- The body of the per-item loop of `search_channels_by_keyword`
(lines 275-300), acting on the accumulator
`(channel_ids_seen, channels_found, detail_calls)`:
skip when the id was seen this keyword or already discovered this session;
build the `fake_channel_info` from the search snippet and skip when
`_is_discovered` matches it; otherwise mark seen and call
`get_channel_details` (`get_details` here — exactly one `channels().list`
quota call per invocation, counted in the third component); skip when the
detailed info now matches `_is_discovered`, else append it to the found
list. -/
def search_channels_step
    (discovered_handles discovered_channel_ids discovered_channels : List String)
    (get_details : String → Option ChannelInfo)
    (acc : List String × List ChannelInfo × Nat) (item : VideoSearchItem) :
    List String × List ChannelInfo × Nat :=
  let seen := acc.1
  let found := acc.2.1
  let calls := acc.2.2
  if seen.contains item.channelId || discovered_channels.contains item.channelId then
    acc
  else
    let fake_channel_info : ChannelCheckInfo :=
      { handle := item.channelTitle
        channel_id := item.channelId
        title := item.channelTitle }
    if is_discovered discovered_handles discovered_channel_ids
        fake_channel_info (some item) then acc
    else
      let seen1 := seen ++ [item.channelId]
      match get_details item.channelId with
      | none => (seen1, found, calls + 1)
      | some ci =>
        if is_discovered discovered_handles discovered_channel_ids
            (channel_check_of ci) (some item) then
          (seen1, found, calls + 1)
        else
          (seen1, found ++ [ci], calls + 1)

/-- The channel-extraction loop of `search_channels_by_keyword` applied to
the whole list of video search results, returning the qualifying channels
and the number of `get_channel_details` calls issued. -/
def search_channels_by_keyword
    (discovered_handles discovered_channel_ids discovered_channels : List String)
    (get_details : String → Option ChannelInfo)
    (items : List VideoSearchItem) : List ChannelInfo × Nat :=
  let r := items.foldl
    (search_channels_step discovered_handles discovered_channel_ids
      discovered_channels get_details) ([], [], 0)
  (r.2.1, r.2.2)

/-! ## Transcription result store (`WhisperAPIServer`, whisper_api_server.py) -/

/-- The stored `TranscriptionResult` dataclass (lines 34-41); the wall-clock
`processing_time` float is not representable exactly and not needed by any
claim, so it is omitted. -/
structure TranscriptionResult where
  request_id : String
  video_id : String
  success : Bool
  transcript : Option String
  error : Option String
  deriving Repr, DecidableEq

/-- The result-storage step of the worker loop `_process_queue`
(lines 290-297): `self.results[req.request_id] = result` on the
insertion-ordered dict (modelled as an association list in insertion
order, as Python dicts preserve insertion order), then, when more than 100
results are stored, `sorted(self.results.keys())[:50]` — the 50 keys that
come FIRST IN LEXICOGRAPHIC STRING ORDER, not the 50 oldest by insertion —
are deleted. -/
def store_result (results : List (String × TranscriptionResult))
    (rid : String) (r : TranscriptionResult) :
    List (String × TranscriptionResult) :=
  let results1 :=
    if (results.lookup rid).isSome then
      results.map (fun p => if p.1 = rid then (rid, r) else p)
    else results ++ [(rid, r)]
  if 100 < results1.length then
    let oldest_keys := (py_sorted (results1.map (·.1))).take 50
    results1.filter (fun p => !(oldest_keys.contains p.1))
  else results1

/-- The JSON body produced by the `/result/<request_id>` route; absent
fields are `none`. -/
structure ResultResponse where
  status : String
  queue_size : Option Nat
  request_id : Option String
  video_id : Option String
  transcript : Option String
  error : Option String
  deriving Repr, DecidableEq

/-- `get_result` (whisper_api_server.py lines 133-162): an id absent from
`self.results` — never submitted, pending, or already evicted — yields HTTP
200 with `{'status': 'processing', 'queue_size': ...}`; a present id yields
HTTP 200 with status `completed`/`failed` plus transcript or error.  No
statement in the route body can raise, so the `except` branch returning 500
is dead code. -/
def get_result (results : List (String × TranscriptionResult))
    (queue_size : Nat) (request_id : String) : Nat × ResultResponse :=
  match results.lookup request_id with
  | none =>
    (200, { status := "processing", queue_size := some queue_size
            request_id := none, video_id := none
            transcript := none, error := none })
  | some r =>
    (200, { status := if r.success then "completed" else "failed"
            queue_size := none
            request_id := some r.request_id, video_id := some r.video_id
            transcript := if r.success then r.transcript else none
            error := if r.success then none else r.error })

/-- Two-digit zero-padded key fragment used to build concrete request-id
scenarios. -/
def digit_char (n : Nat) : Char := Char.ofNat (48 + n)

def c8_key (i : Nat) : String := String.mk ['k', digit_char (i / 10), digit_char (i % 10)]

/-- A failed transcription result as the worker builds it (lines 279-287). -/
def dummy_result (rid : String) : TranscriptionResult :=
  { request_id := rid, video_id := "v", success := false,
    transcript := none, error := some "Transcription failed" }

/-- A concrete 100-entry result store in insertion order: request id `zzz`
was inserted first (it is the oldest), then `k00` … `k98`. -/
def c8_pre : List (String × TranscriptionResult) :=
  ("zzz", dummy_result "zzz")
    :: (List.range 99).map (fun i => (c8_key i, dummy_result (c8_key i)))

/-! ## Helper lemmas -/

theorem switch_to_next_fst (s : FinderState) :
    (switch_to_next_api_key s).1 =
      { s with current_key_index := s.current_key_index + 1 } := by
  unfold switch_to_next_api_key
  split <;> rfl

theorem iter_switch_index (s : FinderState) (n : Nat) :
    (iter_switch s n).current_key_index = s.current_key_index + n ∧
    (iter_switch s n).api_keys = s.api_keys := by
  induction n with
  | zero => exact ⟨rfl, rfl⟩
  | succ k ih =>
    show (switch_to_next_api_key (iter_switch s k)).1.current_key_index = _ ∧
         (switch_to_next_api_key (iter_switch s k)).1.api_keys = _
    rw [switch_to_next_fst]
    exact ⟨by simp [ih.1]; omega, ih.2⟩

theorem mk_finder_ok (keys : List String) (s : FinderState)
    (h : mk_finder keys = .ok s) :
    s.api_keys = keys ∧ s.current_key_index = 0 ∧ keys ≠ [] := by
  unfold mk_finder at h
  split at h
  · exact absurd h (by simp)
  · next hne =>
    injection h with h
    subst h
    refine ⟨rfl, rfl, ?_⟩
    simpa using hne

theorem reachable_index_lt (s : FinderState) (h : ReachableFinder s) :
    s.current_key_index < s.api_keys.length := by
  induction h with
  | init keys t hmk =>
    obtain ⟨hk, hi, hne⟩ := mk_finder_ok keys t hmk
    rw [hk, hi]
    exact List.length_pos.mpr hne
  | usage t ht ih => exact ih
  | switchOk t ht hnone ih =>
    rw [switch_to_next_fst]
    show t.current_key_index + 1 < t.api_keys.length
    unfold switch_to_next_api_key at hnone
    split at hnone
    · simp at hnone
    · next hcond => omega

theorem provider_fails_attempt_none
    (client : Option (String → ClientResult)) (prompt : String)
    (h : provider_call_fails client prompt) :
    attempt_provider client prompt = none := by
  cases client with
  | none => rfl
  | some call =>
    unfold provider_call_fails at h
    rcases h with h | h | h
    · simp [attempt_provider, h]
    · simp [attempt_provider, h]
    · simp [attempt_provider, h]
      decide

/-! ## Claim theorems -/

/-- C2: for every credential pool of size `n ≥ 2`, calling
`switch_to_next_api_key` exactly `n - 1` times succeeds (no
`QuotaExceededError`), with the active index strictly increasing by one at
each call; the `n`-th call raises `QuotaExceededError` ("All API keys
exhausted"); and the active index after `k` rotations is exactly `k`, so
rotation never wraps back to an earlier index within a run. -/
theorem C2_forward_only_rotation :
    ∀ (keys : List String) (s0 : FinderState),
      mk_finder keys = .ok s0 → 2 ≤ keys.length →
      (∀ k, k < keys.length - 1 →
          (switch_to_next_api_key (iter_switch s0 k)).2 = none ∧
          (iter_switch s0 (k + 1)).current_key_index =
            (iter_switch s0 k).current_key_index + 1) ∧
      (switch_to_next_api_key (iter_switch s0 (keys.length - 1))).2 =
        some "All API keys exhausted" ∧
      ∀ k, (iter_switch s0 k).current_key_index = k := by
  intro keys s0 hmk hlen
  obtain ⟨hk, hi, -⟩ := mk_finder_ok keys s0 hmk
  have hidx : ∀ k, (iter_switch s0 k).current_key_index = k := by
    intro k
    rw [(iter_switch_index s0 k).1, hi, Nat.zero_add]
  have hkeys : ∀ k, (iter_switch s0 k).api_keys = keys := by
    intro k
    rw [(iter_switch_index s0 k).2, hk]
  refine ⟨?_, ?_, hidx⟩
  · intro k hklt
    refine ⟨?_, ?_⟩
    · have hcond :
          ¬ ((iter_switch s0 k).api_keys.length ≤
              (iter_switch s0 k).current_key_index + 1) := by
        rw [hkeys k, hidx k]
        omega
      unfold switch_to_next_api_key
      rw [if_neg hcond]
    · rw [hidx (k + 1), hidx k]
  · have hcond :
        (iter_switch s0 (keys.length - 1)).api_keys.length ≤
          (iter_switch s0 (keys.length - 1)).current_key_index + 1 := by
      rw [hkeys, hidx]
      omega
    unfold switch_to_next_api_key
    rw [if_pos hcond]

/-- Witness for C2 on the concrete three-key pool: the third rotation call
raises `QuotaExceededError`. -/
theorem C2_witness :
    (switch_to_next_api_key
        (iter_switch ⟨["a", "b", "c"], 0, [0, 0, 0]⟩ 2)).2 =
      some "All API keys exhausted" :=
  (C2_forward_only_rotation ["a", "b", "c"] ⟨["a", "b", "c"], 0, [0, 0, 0]⟩
    rfl (by decide)).2.1

/-- C5 (amended): in every reachable state of a non-empty credential pool —
after construction, after any number of `track_api_usage` calls, and after
every successful rotation — the active index satisfies
`active_index < len(credentials)`; but a rotation attempt that raises
`QuotaExceededError` leaves the object with `active_index = len(credentials)`
(the index is incremented before the bound check), so after a failed
rotation only `active_index ≤ len(credentials)` holds. -/
theorem C5_pool_invariant :
    ∀ s : FinderState, ReachableFinder s →
      s.current_key_index < s.api_keys.length ∧
      ((switch_to_next_api_key s).2.isSome = true →
        (switch_to_next_api_key s).1.current_key_index =
          (switch_to_next_api_key s).1.api_keys.length) := by
  intro s h
  have hlt := reachable_index_lt s h
  refine ⟨hlt, fun hsome => ?_⟩
  rw [switch_to_next_fst]
  show s.current_key_index + 1 = s.api_keys.length
  unfold switch_to_next_api_key at hsome
  split at hsome
  · next hcond => omega
  · simp at hsome

/-- Witness for C5 on the concrete one-key pool (reachable via
construction). -/
theorem C5_witness :
    (⟨["key1"], 0, [0]⟩ : FinderState).current_key_index <
      (⟨["key1"], 0, [0]⟩ : FinderState).api_keys.length ∧
    ((switch_to_next_api_key ⟨["key1"], 0, [0]⟩).2.isSome = true →
      (switch_to_next_api_key ⟨["key1"], 0, [0]⟩).1.current_key_index =
        (switch_to_next_api_key ⟨["key1"], 0, [0]⟩).1.api_keys.length) :=
  C5_pool_invariant ⟨["key1"], 0, [0]⟩ (ReachableFinder.init ["key1"] _ rfl)

/-- Counterexample to C5 as stated: on the reachable one-key pool, the
rotation attempt raises `QuotaExceededError` and leaves the object with
`current_key_index = 1 = len(api_keys)`, violating
`active_index < len(credentials)` in the state observed after the failed
rotation attempt. -/
theorem C5_counterexample :
    mk_finder ["key1"] = .ok (⟨["key1"], 0, [0]⟩ : FinderState) ∧
    (switch_to_next_api_key ⟨["key1"], 0, [0]⟩).2.isSome = true ∧
    (switch_to_next_api_key ⟨["key1"], 0, [0]⟩).1.current_key_index = 1 ∧
    ¬ ((switch_to_next_api_key ⟨["key1"], 0, [0]⟩).1.current_key_index <
        (switch_to_next_api_key ⟨["key1"], 0, [0]⟩).1.api_keys.length) :=
  ⟨rfl, by decide, by decide, by decide⟩

/-- C1 (amended): when the underlying transport signals quota exhaustion —
on the search call or on the batch-detail call —
`get_channel_videos_with_stats` catches the `HttpError` in its blanket
`except Exception` handler and returns normally with an EMPTY list (after 1
resp. 2 issued calls); no `QuotaExceeded` exception reaches the caller, so
the orchestrator cannot rotate credentials in response to this call. -/
theorem C1_quota_gives_empty_list :
    ∀ (t : YouTubeTransport) (channel_id : String) (max_results : Nat),
      (t.searchList channel_id max_results = .quotaError →
        get_channel_videos_with_stats t channel_id max_results =
          (.normal [], 1)) ∧
      (∀ items, t.searchList channel_id max_results = .ok items →
        items.isEmpty = false →
        t.videosList (items.map SearchListItem.videoId) = .quotaError →
        get_channel_videos_with_stats t channel_id max_results =
          (.normal [], 2)) := by
  intro t cid mr
  constructor
  · intro hq
    unfold get_channel_videos_with_stats get_channel_videos_with_stats_body
    rw [hq]
  · intro items hok hne hq
    unfold get_channel_videos_with_stats get_channel_videos_with_stats_body
    rw [hok]
    simp only [hne, Bool.false_eq_true, if_false]
    rw [hq]

/-- Witness for C1 (amended) on a concrete always-quota-exhausted
transport. -/
theorem C1_witness :
    get_channel_videos_with_stats
        ⟨fun _ _ => .quotaError, fun _ => .quotaError⟩ "UCx" 15 =
      (PyOutcome.normal [], 1) :=
  (C1_quota_gives_empty_list
    ⟨fun _ _ => .quotaError, fun _ => .quotaError⟩ "UCx" 15).1 rfl

/-- Counterexample to C1 as stated: on a transport whose search call
signals quota exhaustion, `get_channel_videos_with_stats` does NOT raise —
its outcome is a normal return of the empty item list, so the caller
observes an empty list, never an exception. -/
theorem C1_counterexample :
    (get_channel_videos_with_stats
        ⟨fun _ _ => .quotaError, fun _ => .quotaError⟩ "UCx" 15).1 =
      PyOutcome.normal [] ∧
    ((get_channel_videos_with_stats
        ⟨fun _ _ => .quotaError, fun _ => .quotaError⟩ "UCx" 15).1).isRaised =
      false :=
  ⟨rfl, rfl⟩

/-- C3 (amended): for every subject id and requested count in [1, 50],
`get_channel_videos_with_stats` issues exactly two quota-bounded API calls
(one search bounded to the count, one batch-detail call over all returned
ids) whenever the search returns at least one item; when the search returns
no items the function returns after only the single search call. -/
theorem C3_two_call_batching :
    ∀ (t : YouTubeTransport) (channel_id : String) (count : Nat)
      (items : List SearchListItem),
      1 ≤ count → count ≤ 50 →
      t.searchList channel_id count = .ok items →
      (get_channel_videos_with_stats t channel_id count).2 =
        if items.isEmpty then 1 else 2 := by
  intro t cid n items _ _ hok
  unfold get_channel_videos_with_stats get_channel_videos_with_stats_body
  rw [hok]
  cases hi : items.isEmpty
  · simp only [hi, Bool.false_eq_true, if_false]
    cases t.videosList (items.map SearchListItem.videoId) <;> rfl
  · simp [hi]

/-- Witness for C3 (amended) on a concrete transport returning one search
item: exactly two calls are issued. -/
theorem C3_witness :
    (get_channel_videos_with_stats
        ⟨fun _ _ => .ok [⟨"v1"⟩], fun _ => .ok []⟩ "UCx" 15).2 = 2 :=
  C3_two_call_batching ⟨fun _ _ => .ok [⟨"v1"⟩], fun _ => .ok []⟩ "UCx" 15
    [⟨"v1"⟩] (by decide) (by decide) rfl

/-- Counterexample to C3 as stated: on a transport whose search returns
zero items (count 15, within [1, 50]), only ONE underlying call is issued,
not two. -/
theorem C3_counterexample :
    (get_channel_videos_with_stats
        ⟨fun _ _ => .ok [], fun _ => .ok []⟩ "UCx" 15).2 = 1 ∧
    ¬ ((get_channel_videos_with_stats
        ⟨fun _ _ => .ok [], fun _ => .ok []⟩ "UCx" 15).2 = 2) :=
  ⟨rfl, by decide⟩

/-- C4: a candidate whose fetched videos contain fewer than
`min_videos_with_min_views = 8` videos with at least
`min_views_per_video = 1000` views is rejected by
`process_channel_optimized` before `verify_niche_from_cached_videos` is
reached: the candidate is not accepted and the number of classifier (LLM)
calls made for it is zero. -/
theorem C4_reject_before_classifier :
    ∀ (discovered_channels : List String) (t : YouTubeTransport)
      (analyze : String → String) (channel_info : ChannelInfo)
      (videos : List ProcessedVideo),
      (get_channel_videos_with_stats t channel_info.channel_id 15).1 =
        .normal videos →
      (videos.filter (fun v => 1000 ≤ video_view_count v)).length < 8 →
      process_channel_optimized discovered_channels t analyze channel_info =
        (false, 0) := by
  intro disc t analyze ci videos hv hlt
  unfold process_channel_optimized
  split
  · rfl
  · rw [hv]
    by_cases hvi : videos.isEmpty
    · simp [hvi]
    · simp only [hvi, Bool.false_eq_true, if_false]
      simp only [if_pos hlt]

/-- Witness for C4 on a concrete transport returning no videos: zero
classifier calls, candidate rejected. -/
theorem C4_witness :
    process_channel_optimized [] ⟨fun _ _ => .ok [], fun _ => .ok []⟩
        (fun _ => "YES | fits | Dating Advice")
        ⟨"UC1", "t", "@h", "d", 50000, 10, 1000⟩ = (false, 0) :=
  C4_reject_before_classifier [] ⟨fun _ _ => .ok [], fun _ => .ok []⟩
    (fun _ => "YES | fits | Dating Advice")
    ⟨"UC1", "t", "@h", "d", 50000, 10, 1000⟩ [] rfl (by decide)

/-- C6: `analyze_content` / `_call_ai_api` never raises — its embedding is
a total function into `String` because every provider interaction in the
source is wrapped in `try`/`except` — and whenever the primary (Groq) call
fails and the secondary (OpenAI) call also fails (raises, returns nothing,
or the client is not configured at all), it returns the fixed
human-readable unavailability string. -/
theorem C6_classifier_total_fallback :
    ∀ (groq_client openai_client : Option (String → ClientResult))
      (prompt : String),
      provider_call_fails groq_client prompt →
      provider_call_fails openai_client prompt →
      analyze_content groq_client openai_client prompt =
        "Unable to generate content analysis - AI services unavailable." := by
  intro g o p hg ho
  unfold analyze_content call_ai_api
  rw [provider_fails_attempt_none g p hg, provider_fails_attempt_none o p ho]
  rfl

/-- Witness for C6: with neither client configured, the fixed string is
returned. -/
theorem C6_witness :
    analyze_content none none "classify this channel" =
      "Unable to generate content analysis - AI services unavailable." :=
  C6_classifier_total_fallback none none "classify this channel"
    True.intro True.intro

/-- C7: with a non-empty cached-video list, a classifier response that
splits on the pipe character into fewer than three fields makes
`verify_niche_from_cached_videos` return exactly
`(False, "Could not parse AI response", "")` (the embedding is total, so no
exception is raised); and with at least three fields, the match decision is
exactly whether the stripped-and-uppercased first field equals `YES` — a
case-insensitive comparison against the literal `YES`, every other decision
value giving a negative match. -/
theorem C7_parse_protocol :
    ∀ (channel_info : ChannelInfo) (videos : List ProcessedVideo)
      (resp : String),
      videos ≠ [] →
      ((py_split resp '|').length < 3 →
        (verify_niche_from_cached_videos channel_info videos
            (fun _ => resp)).1 =
          (false, "Could not parse AI response", "")) ∧
      (3 ≤ (py_split resp '|').length →
        ((verify_niche_from_cached_videos channel_info videos
            (fun _ => resp)).1.1 = true ↔
          py_upper (py_strip ((py_split resp '|').getD 0 "")) = "YES")) := by
  intro ci videos resp hne
  have hvi : videos.isEmpty = false := by
    cases videos
    · simp at hne
    · rfl
  constructor
  · intro hlt
    unfold verify_niche_from_cached_videos
    simp only [hvi, Bool.false_eq_true, if_false]
    rw [if_neg (by omega)]
  · intro hge
    unfold verify_niche_from_cached_videos
    simp only [hvi, Bool.false_eq_true, if_false]
    rw [if_pos hge]
    simp [beq_iff_eq]

/-- Witness for C7: a two-field response on a one-video list yields the
fixed parse-failure triple. -/
theorem C7_witness :
    (verify_niche_from_cached_videos ⟨"UC1", "t", "@h", "d", 0, 0, 0⟩
        [⟨"v", ⟨"t", "d"⟩, none, 0⟩] (fun _ => "no pipes here")).1 =
      (false, "Could not parse AI response", "") :=
  (C7_parse_protocol ⟨"UC1", "t", "@h", "d", 0, 0, 0⟩
    [⟨"v", ⟨"t", "d"⟩, none, 0⟩] "no pipes here" (by decide)).1 (by decide)

/-- C8: evaluation of the worker's eviction step at the failing input.  The
store `c8_pre` holds 100 results, the OLDEST of which (inserted first) has
request id `zzz`; storing one more result (id `x`) makes the store exceed
100, and the code deletes `sorted(keys)[:50]` — the 50 lexicographically
smallest ids `k00` … `k49` — so the store shrinks to 51 entries in which
the oldest result `zzz` is still present and the more recently inserted
`k00` is gone.  The claimed behavior (discard exactly the 50 least recently
inserted results, retain every more recent one) would have evicted `zzz`
and retained `k00`. -/
theorem C8_eviction_not_by_insertion_order :
    c8_pre.length = 100 ∧
    (c8_pre.map Prod.fst).getD 0 "" = "zzz" ∧
    (store_result c8_pre "x" (dummy_result "x")).length = 51 ∧
    ((store_result c8_pre "x" (dummy_result "x")).lookup "zzz").isSome = true ∧
    ((store_result c8_pre "x" (dummy_result "x")).lookup "k00").isSome = false := by
  decide

/-- C9 (amended): in the per-item loop of `search_channels_by_keyword`, a
search result whose snippet already matches the persistent registry —
by channel id, or because its CHANNEL TITLE normalizes into the registry's
handle set — is skipped with no `get_channel_details` (profile-detail) call
and is not added to the returned candidate list (so it can never reach
classification); a search result that matches the registry only by its
RESOLVED handle (obtained from the detail response, differing from the
channel title) is skipped only AFTER exactly one profile-detail call, and
is likewise kept out of the returned candidate list. -/
theorem C9_registry_dedup :
    ∀ (discovered_handles discovered_channel_ids discovered_channels :
        List String)
      (get_details : String → Option ChannelInfo)
      (seen : List String) (found : List ChannelInfo) (calls : Nat)
      (item : VideoSearchItem),
      (is_discovered discovered_handles discovered_channel_ids
          ⟨item.channelTitle, item.channelId, item.channelTitle⟩
          (some item) = true →
        search_channels_step discovered_handles discovered_channel_ids
          discovered_channels get_details (seen, found, calls) item =
          (seen, found, calls)) ∧
      (seen.contains item.channelId = false →
        discovered_channels.contains item.channelId = false →
        is_discovered discovered_handles discovered_channel_ids
          ⟨item.channelTitle, item.channelId, item.channelTitle⟩
          (some item) = false →
        ∀ ci, get_details item.channelId = some ci →
          is_discovered discovered_handles discovered_channel_ids
            (channel_check_of ci) (some item) = true →
          search_channels_step discovered_handles discovered_channel_ids
            discovered_channels get_details (seen, found, calls) item =
            (seen ++ [item.channelId], found, calls + 1)) := by
  intro handles ids discovered get_details seen found calls item
  constructor
  · intro hfake
    unfold search_channels_step
    by_cases h1 :
        (seen.contains item.channelId
          || discovered.contains item.channelId) = true
    · simp only [h1, if_true]
    · simp only [Bool.not_eq_true] at h1
      simp only [h1, Bool.false_eq_true, if_false, hfake, if_true]
  · intro h1 h2 hfake ci hci hdisc
    unfold search_channels_step
    simp only [h1, h2, Bool.or_self, Bool.false_eq_true, if_false, hfake,
      hci, hdisc, if_true]

/-- Witness for C9 (amended), first part: a search result whose channel
title normalizes into the registry handle set is skipped with zero
profile-detail calls. -/
theorem C9_witness :
    search_channels_step ["existingcreator"] [] [] (fun _ => none)
        ([], [], 0) ⟨"UC1", "@ExistingCreator"⟩ = ([], [], 0) :=
  (C9_registry_dedup ["existingcreator"] [] [] (fun _ => none) [] [] 0
    ⟨"UC1", "@ExistingCreator"⟩).1 (by decide)

/-- Counterexample to C9 as stated: the registry contains the handle
`existingcreator`; a search result whose channel title (`Cool Channel`)
does not match but whose RESOLVED handle (`@ExistingCreator`, returned by
the profile-detail call) normalizes to `existingcreator` IS a
registry-handle match, yet processing it issues exactly ONE profile-detail
call — not zero as claimed.  (The subject is still excluded from the
returned candidate list, so no classification call can follow.) -/
theorem C9_counterexample :
    py_lower (py_lstrip_at (py_strip "@ExistingCreator")) = "existingcreator" ∧
    search_channels_by_keyword ["existingcreator"] [] []
        (fun cid =>
          if cid = "UCabc" then
            some ⟨"UCabc", "Cool Channel", "@ExistingCreator", "",
                  50000, 10, 100000⟩
          else none)
        [⟨"UCabc", "Cool Channel"⟩] = ([], 1) := by
  exact ⟨by decide, by decide⟩

/-- C10: the `/result/<request_id>` route answers every request id absent
from the results store — never submitted, still pending, or already
evicted — with HTTP 200 and status `processing` (plus the queue size); it
never answers `queued` and never an unknown-id error, so a caller cannot
distinguish a pending job from a nonexistent or evicted one. -/
theorem C10_absent_id_is_processing :
    ∀ (results : List (String × TranscriptionResult)) (queue_size : Nat)
      (request_id : String),
      results.lookup request_id = none →
      get_result results queue_size request_id =
        (200, { status := "processing", queue_size := some queue_size,
                request_id := none, video_id := none,
                transcript := none, error := none }) ∧
      (get_result results queue_size request_id).2.status ≠ "queued" := by
  intro rs qs rid h
  unfold get_result
  rw [h]
  refine ⟨rfl, ?_⟩
  show ("processing" : String) ≠ "queued"
  decide

/-- Witness for C10: an id that was never submitted yields the
`processing` response. -/
theorem C10_witness :
    get_result [] 3 "never-submitted-id" =
      (200, { status := "processing", queue_size := some 3,
              request_id := none, video_id := none,
              transcript := none, error := none }) :=
  (C10_absent_id_is_processing [] 3 "never-submitted-id" rfl).1
